import Mathlib

set_option autoImplicit false

/-!
Shallow embedding of the AI playlist curation core of the `vibe-player`
repository, together with proofs about it.

Conventions used throughout:
* C++ `std::string` is modelled as Lean `String` (operated on as `List Char`);
  all metadata text handled by the claims is ASCII, and the C-locale
  `std::tolower` / `std::isalnum` / `std::isspace` are modelled on ASCII.
* C++ `std::vector<size_t>` holding library indices is modelled as `List Nat`.
* `std::set` is modelled as `Finset` (membership) or as a sorted
  duplicate-free list (iteration order).
* `std::optional<T>` is `Option T`; a `generate` call returning
  `std::nullopt` is `Option.none`.
* The backends stringify each selected index with `std::to_string` before
  returning it; since that map is injective the embeddings return the
  indices themselves (`List Nat`).
-/

/-- Track record from `common/include/metadata.h` (`struct TrackMetadata`). -/
structure TrackMetadata where
  filepath : String
  filename : String
  title : Option String := none
  artist : Option String := none
  album : Option String := none
  genre : Option String := none
  year : Option Int := none
  duration_ms : Int := 0
  file_mtime : Int := 0
  dropbox_hash : Option String := none
  dropbox_rev : Option String := none
deriving Repr, DecidableEq

/-- Search result record from `list/src/library_search.h` (`struct SearchResult`). -/
structure SearchResult where
  track_indices : List Nat
  total_matches : Nat
deriving Repr, DecidableEq

/-- ASCII model of C-locale `std::tolower` applied to each character. -/
def asciiToLower (c : Char) : Char :=
  if 'A' ≤ c ∧ c ≤ 'Z' then Char.ofNat (c.toNat + 32) else c

/-- Model of `LibrarySearch::toLower` (`library_search.cpp`): lowercase every
character of the string. -/
def strToLower (s : List Char) : List Char :=
  s.map asciiToLower

/-- Check that `pre` occurs at the head of `l` (used to model
`std::string::find`). -/
def leadMatch : List Char → List Char → Bool
  | [], _ => true
  | _ :: _, [] => false
  | a :: as, b :: bs => a == b && leadMatch as bs

/-- Check that `needle` occurs contiguously somewhere in `hay`; this is
`haystack.find(needle) != npos`.  An empty needle is found in every
haystack, exactly as `std::string::find` reports position 0. -/
def containsSub (needle : List Char) : List Char → Bool
  | [] => needle.isEmpty
  | c :: rest => leadMatch needle (c :: rest) || containsSub needle rest

/-- Model of `LibrarySearch::containsIgnoreCase`: lowercase both strings, then
substring search. -/
def containsIgnoreCase (haystack needle : String) : Bool :=
  containsSub (strToLower needle.toList) (strToLower haystack.toList)

/-- First scanning loop shared by the five `LibrarySearch::searchBy*` functions
(`library_search.cpp`): walk the library in order while fewer than
`maxResults` indices have been collected; each match appends its index and
increments `total_matches`.  Returns `(track_indices, total_matches)` as left
by the loop. -/
def scanWithCap (p : TrackMetadata → Bool) (maxResults : Nat) :
    List TrackMetadata → Nat → List Nat → Nat → List Nat × Nat
  | [], _, acc, total => (acc, total)
  | t :: rest, i, acc, total =>
    if acc.length < maxResults then
      if p t then scanWithCap p maxResults rest (i + 1) (acc ++ [i]) (total + 1)
      else scanWithCap p maxResults rest (i + 1) acc total
    else (acc, total)

/-- Second loop of the `searchBy*` functions: count matches at positions
`start, start+1, …` of the library (the code starts this loop at
`i = result.track_indices.size()`). -/
def countMatchesFrom (p : TrackMetadata → Bool) (lib : List TrackMetadata)
    (start : Nat) : Nat :=
  ((lib.drop start).filter p).length

/-- Body shared verbatim by the five `LibrarySearch::searchBy*` functions:
capped scan, then — only when the cap was hit — a second counting pass that
the code starts at index `track_indices.size()`. -/
def searchByField (p : TrackMetadata → Bool) (lib : List TrackMetadata)
    (maxResults : Nat) : SearchResult :=
  let r := scanWithCap p maxResults lib 0 [] 0
  let total :=
    if maxResults ≤ r.1.length then r.2 + countMatchesFrom p lib r.1.length
    else r.2
  { track_indices := r.1, total_matches := total }

/-- Match predicate of `LibrarySearch::searchByArtist`: the track has an artist
and it contains the query case-insensitively. -/
def matchesArtistQuery (q : String) (t : TrackMetadata) : Bool :=
  match t.artist with
  | some a => containsIgnoreCase a q
  | none => false

/-- Match predicate of `LibrarySearch::searchByGenre`. -/
def matchesGenreQuery (q : String) (t : TrackMetadata) : Bool :=
  match t.genre with
  | some g => containsIgnoreCase g q
  | none => false

/-- Match predicate of `LibrarySearch::searchByAlbum`. -/
def matchesAlbumQuery (q : String) (t : TrackMetadata) : Bool :=
  match t.album with
  | some a => containsIgnoreCase a q
  | none => false

/-- Match predicate of `LibrarySearch::searchByTitle`. -/
def matchesTitleQuery (q : String) (t : TrackMetadata) : Bool :=
  match t.title with
  | some ti => containsIgnoreCase ti q
  | none => false

/-- Match predicate of `LibrarySearch::searchByYearRange` (inclusive bounds,
absent year never matches). -/
def matchesYearRange (startYear endYear : Int) (t : TrackMetadata) : Bool :=
  match t.year with
  | some y => decide (startYear ≤ y) && decide (y ≤ endYear)
  | none => false

/-- Model of `LibrarySearch::searchByArtist`. -/
def searchByArtist (lib : List TrackMetadata) (q : String) (maxResults : Nat) :
    SearchResult :=
  searchByField (matchesArtistQuery q) lib maxResults

/-- Model of `LibrarySearch::searchByGenre`. -/
def searchByGenre (lib : List TrackMetadata) (q : String) (maxResults : Nat) :
    SearchResult :=
  searchByField (matchesGenreQuery q) lib maxResults

/-- Model of `LibrarySearch::searchByAlbum`. -/
def searchByAlbum (lib : List TrackMetadata) (q : String) (maxResults : Nat) :
    SearchResult :=
  searchByField (matchesAlbumQuery q) lib maxResults

/-- Model of `LibrarySearch::searchByTitle`. -/
def searchByTitle (lib : List TrackMetadata) (q : String) (maxResults : Nat) :
    SearchResult :=
  searchByField (matchesTitleQuery q) lib maxResults

/-- Model of `LibrarySearch::searchByYearRange`. -/
def searchByYearRange (lib : List TrackMetadata) (startYear endYear : Int)
    (maxResults : Nat) : SearchResult :=
  searchByField (matchesYearRange startYear endYear) lib maxResults

/-- True number of tracks of the library matching a predicate: what the spec
calls the "true count across the whole library". -/
def trueMatchCount (p : TrackMetadata → Bool) (lib : List TrackMetadata) : Nat :=
  (lib.filter p).length

/-- Model of `LibrarySearch::intersectResults`: build a set from `b`'s indices,
keep the entries of `a`'s indices found in it (in `a`'s order), and recompute
`total_matches` as the resulting length. -/
def intersectResults (a b : SearchResult) : SearchResult :=
  let bset := b.track_indices.toFinset
  let idxs := a.track_indices.filter (fun x => decide (x ∈ bset))
  { track_indices := idxs, total_matches := idxs.length }

/-- Model of `LibrarySearch::unionResults`: insert both index lists into one
`std::set<size_t>` (ascending, duplicate-free) and list its elements;
`total_matches` is recomputed as the resulting length. -/
def unionResults (a b : SearchResult) : SearchResult :=
  let combined := (a.track_indices ++ b.track_indices).toFinset
  let idxs := Finset.sort (· ≤ ·) combined
  { track_indices := idxs, total_matches := idxs.length }

/-- Invariant stated by the spec for every search result: no more indices than
`total_matches` and no more than the requested cap. -/
def capInvariant (r : SearchResult) (maxResults : Nat) : Prop :=
  r.track_indices.length ≤ r.total_matches ∧ r.track_indices.length ≤ maxResults

lemma scanWithCap_length_le (p : TrackMetadata → Bool) (maxResults : Nat) :
    ∀ (tracks : List TrackMetadata) (i : Nat) (acc : List Nat) (tot : Nat),
      acc.length ≤ maxResults →
      (scanWithCap p maxResults tracks i acc tot).1.length ≤ maxResults := by
  intro tracks
  induction tracks with
  | nil => intro i acc tot h; simpa [scanWithCap] using h
  | cons t rest ih =>
    intro i acc tot h
    by_cases hlt : acc.length < maxResults
    · by_cases hp : p t
      · simpa [scanWithCap, hlt, hp] using ih (i + 1) (acc ++ [i]) (tot + 1)
          (by simpa using hlt)
      · simpa [scanWithCap, hlt, hp] using ih (i + 1) acc tot h
    · simpa [scanWithCap, hlt] using h

lemma scanWithCap_total_eq (p : TrackMetadata → Bool) (maxResults : Nat) :
    ∀ (tracks : List TrackMetadata) (i : Nat) (acc : List Nat) (tot : Nat),
      (scanWithCap p maxResults tracks i acc tot).1.length + tot =
        (scanWithCap p maxResults tracks i acc tot).2 + acc.length := by
  intro tracks
  induction tracks with
  | nil => intro i acc tot; simp [scanWithCap, Nat.add_comm]
  | cons t rest ih =>
    intro i acc tot
    by_cases hlt : acc.length < maxResults
    · by_cases hp : p t
      · have := ih (i + 1) (acc ++ [i]) (tot + 1)
        simp only [scanWithCap, hlt, hp, if_true, if_pos] at this ⊢
        simp only [List.length_append, List.length_cons, List.length_nil] at this
        omega
      · simpa [scanWithCap, hlt, hp] using ih (i + 1) acc tot
    · simp [scanWithCap, hlt, Nat.add_comm]

lemma searchByField_capInvariant (p : TrackMetadata → Bool)
    (lib : List TrackMetadata) (maxResults : Nat) :
    capInvariant (searchByField p lib maxResults) maxResults := by
  have hlen := scanWithCap_length_le p maxResults lib 0 [] 0 (by simp)
  have htot : (scanWithCap p maxResults lib 0 [] 0).1.length =
      (scanWithCap p maxResults lib 0 [] 0).2 := by
    simpa using scanWithCap_total_eq p maxResults lib 0 [] 0
  constructor
  · simp only [searchByField]
    split
    · omega
    · omega
  · simpa [searchByField] using hlen

/-- C7: every search operation returns at most `maxResults` indices and never
more indices than `total_matches`; and the intersection of two results only
keeps indices present in both inputs (so `intersectResults(A, searchByArtist x)`
is contained in `searchByArtist(x).indices`). -/
theorem C7_search_result_invariants :
    (∀ (lib : List TrackMetadata) (q : String) (m : Nat),
        capInvariant (searchByArtist lib q m) m ∧
        capInvariant (searchByGenre lib q m) m ∧
        capInvariant (searchByAlbum lib q m) m ∧
        capInvariant (searchByTitle lib q m) m) ∧
    (∀ (lib : List TrackMetadata) (s e : Int) (m : Nat),
        capInvariant (searchByYearRange lib s e m) m) ∧
    (∀ (a b : SearchResult) (x : Nat),
        x ∈ (intersectResults a b).track_indices →
        x ∈ a.track_indices ∧ x ∈ b.track_indices) := by
  refine ⟨fun lib q m => ⟨?_, ?_, ?_, ?_⟩, fun lib s e m => ?_, fun a b x hx => ?_⟩
  · exact searchByField_capInvariant _ lib m
  · exact searchByField_capInvariant _ lib m
  · exact searchByField_capInvariant _ lib m
  · exact searchByField_capInvariant _ lib m
  · exact searchByField_capInvariant _ lib m
  · simp only [intersectResults, List.mem_filter, decide_eq_true_eq,
      List.mem_toFinset] at hx
    exact hx

/-- C10: `intersectResults` keeps, in `a`'s original order, exactly the entries
of `a.track_indices` that occur in `b.track_indices`; `unionResults` lists the
set union strictly ascending without duplicates; both recompute
`total_matches` as the output length. -/
theorem C10_intersect_union_semantics :
    ∀ a b : SearchResult,
      (intersectResults a b).track_indices =
        a.track_indices.filter (fun x => decide (x ∈ b.track_indices)) ∧
      (intersectResults a b).total_matches =
        (intersectResults a b).track_indices.length ∧
      List.Sorted (· < ·) (unionResults a b).track_indices ∧
      (∀ x, x ∈ (unionResults a b).track_indices ↔
        x ∈ a.track_indices ∨ x ∈ b.track_indices) ∧
      (unionResults a b).total_matches =
        (unionResults a b).track_indices.length := by
  intro a b
  refine ⟨?_, rfl, ?_, fun x => ?_, rfl⟩
  · simp only [intersectResults]
    exact List.filter_congr (fun x _ => by simp [List.mem_toFinset])
  · simp only [unionResults]
    exact Finset.sort_sorted_lt _
  · simp [unionResults, Finset.mem_sort, List.mem_toFinset]

/-- Library used to exhibit the double-counting slip in the `searchBy*`
functions: the first track has no artist, the next two match the query. -/
def searchBugLib : List TrackMetadata :=
  [{ filepath := "/music/t0.mp3", filename := "t0.mp3" },
   { filepath := "/music/t1.mp3", filename := "t1.mp3", artist := some "Abba" },
   { filepath := "/music/t2.mp3", filename := "t2.mp3", artist := some "Abba" }]

/-- C1: evaluation of the slip in `LibrarySearch::searchByArtist` (shared by
all five `searchBy*` functions).  The second counting loop restarts at index
`track_indices.size()` instead of where the first loop stopped, so tracks
between those positions are counted twice: on a 3-track library whose
matches sit at indices 1 and 2, a search capped at 1 reports
`total_matches = 3` although the true count across the whole library is 2. -/
theorem C1_total_matches_overcount :
    searchByArtist searchBugLib "abba" 1 =
      { track_indices := [1], total_matches := 3 } ∧
    trueMatchCount (matchesArtistQuery "abba") searchBugLib = 2 := by
  constructor <;> rfl

/-- ASCII model of C-locale `std::isalnum`. -/
def asciiIsAlnum (c : Char) : Bool :=
  (decide ('0' ≤ c) && decide (c ≤ '9')) ||
  (decide ('a' ≤ c) && decide (c ≤ 'z')) ||
  (decide ('A' ≤ c) && decide (c ≤ 'Z'))

/-- ASCII model of C-locale `std::isspace`. -/
def asciiIsSpace (c : Char) : Bool :=
  c == ' ' || c == '\t' || c == '\n' || c == '\x0b' || c == '\x0c' || c == '\r'

/-- Model of `KeywordBackend::normalizeText` (`ai_backend_keyword.cpp`): keep
alphanumerics and whitespace lowercased, replace everything else by a space. -/
def normalizeText (s : List Char) : List Char :=
  s.map (fun c => if asciiIsAlnum c || asciiIsSpace c then asciiToLower c else ' ')

/-- Whitespace tokenizer modelling `std::istringstream >> word`: maximal runs
of non-whitespace characters, in order. -/
def splitWordsAux : List Char → List Char → List (List Char)
  | [], cur => if cur.isEmpty then [] else [cur.reverse]
  | c :: rest, cur =>
    if asciiIsSpace c then
      if cur.isEmpty then splitWordsAux rest []
      else cur.reverse :: splitWordsAux rest []
    else splitWordsAux rest (c :: cur)

/-- Words of a character list, as strings. -/
def splitWords (s : List Char) : List String :=
  (splitWordsAux s []).map List.asString

/-- Stop-word list of `KeywordBackend::extractKeywords`. -/
def stopWords : List String :=
  ["a", "an", "and", "are", "as", "at", "be", "by", "for", "from",
   "has", "he", "in", "is", "it", "its", "of", "on", "that", "the",
   "to", "was", "will", "with", "songs", "music", "tracks", "playlist"]

/-- Model of `KeywordBackend::extractKeywords`: normalize, split into words,
keep words of length at least 2 that are not stop words, and collect them
into a `std::set<std::string>` (a `Finset`). -/
def extractKeywords (text : String) : Finset String :=
  ((splitWords (normalizeText text.toList)).filter
    (fun w => decide (2 ≤ w.length) && !(stopWords.contains w))).toFinset

/-- Model of `KeywordBackend::matchesYear`.  The caller builds the `year`
string as `""` when the track has no year and `std::to_string(value)`
otherwise, so the model takes the optional year directly: the `none` case is
the empty-string early return, `toString y` is the year string, and
`std::stoi` applied to it recovers `y`. -/
def matchesYear (keyword : String) (year : Option Int) : Bool :=
  match year with
  | none => false
  | some y =>
    let ys := (toString y).toList
    let ks := keyword.toList
    if ks == ys then true
    else if ks.length == 3 && ks.getD 1 ' ' == '0' && ks.getD 2 ' ' == 's' &&
        decide (3 ≤ ys.length) && ys.getD 2 ' ' == ks.getD 0 ' ' then true
    else if keyword == "recent" || keyword == "new" || keyword == "modern" then
      decide (2015 ≤ y)
    else if keyword == "classic" || keyword == "old" || keyword == "vintage" then
      decide (y ≤ 1990)
    else false

/-- Per-keyword score contribution of `KeywordBackend::scoreTrack`: +5 artist
substring, +4 genre, +2 album, +2 title, +3 year match.  The C++ `double`
score only ever adds these small integers, which `double` represents
exactly, so scores are modelled as `Nat`. -/
def keywordContrib (t : TrackMetadata) (kw : String) : Nat :=
  let artist := normalizeText (t.artist.getD "").toList
  let title := normalizeText (t.title.getD "").toList
  let album := normalizeText (t.album.getD "").toList
  let genre := normalizeText (t.genre.getD "").toList
  (if containsSub kw.toList artist then 5 else 0) +
  (if containsSub kw.toList genre then 4 else 0) +
  (if containsSub kw.toList album then 2 else 0) +
  (if containsSub kw.toList title then 2 else 0) +
  (if matchesYear kw t.year then 3 else 0)

/-- Model of `KeywordBackend::scoreTrack`: sum of the per-keyword
contributions over the keyword set (the loop order over the `std::set` does
not affect the sum). -/
def scoreTrack (t : TrackMetadata) (keywords : Finset String) : Nat :=
  keywords.sum (keywordContrib t)

/-- Model of `KeywordBackend::generate` (`ai_backend_keyword.cpp`).
`maxResults` and `minScore` are the `max_results_` / `min_score_` members
(defaults 50 and 0; nothing in the repository changes them).  The
`std::sort` descending by score is modelled as a stable insertion sort:
`std::sort` leaves the relative order of tied elements unspecified, and
libstdc++'s introsort runs a plain (stable) insertion sort on ranges as
short as the ones settled concretely here.  The returned
`std::to_string`-ed indices are modelled as the indices themselves. -/
def keywordGenerate (user_prompt : String) (lib : List TrackMetadata)
    (maxResults : Nat) (minScore : Nat) : Option (List Nat) :=
  if lib.isEmpty then none
  else
    let keywords := extractKeywords user_prompt
    if keywords = (∅ : Finset String) then none
    else
      let scored := lib.enum.filterMap (fun it =>
        let s := scoreTrack it.2 keywords
        if minScore < s then some (it.1, s) else none)
      if scored.isEmpty then none
      else
        let sorted := List.insertionSort (fun a b => b.2 ≤ a.2) scored
        let truncated :=
          if maxResults < sorted.length then sorted.take maxResults else sorted
        some (truncated.map (fun x => x.1))

/-- Track `("Bowie","Heroes",1977)` of the spec's keyword-backend scenario. -/
def scenarioTrack0 : TrackMetadata :=
  { filepath := "/music/heroes.mp3", filename := "heroes.mp3",
    title := some "Heroes", artist := some "Bowie", year := some 1977 }

/-- Track `("Beatles","Let It Be",1970)` of the scenario. -/
def scenarioTrack1 : TrackMetadata :=
  { filepath := "/music/letitbe.mp3", filename := "letitbe.mp3",
    title := some "Let It Be", artist := some "Beatles", year := some 1970 }

/-- Track `("Daft Punk","One More Time",2000)` of the scenario. -/
def scenarioTrack2 : TrackMetadata :=
  { filepath := "/music/onemoretime.mp3", filename := "onemoretime.mp3",
    title := some "One More Time", artist := some "Daft Punk", year := some 2000 }

/-- 3-track library of the spec's keyword-backend scenario. -/
def scenarioLib : List TrackMetadata :=
  [scenarioTrack0, scenarioTrack1, scenarioTrack2]

/-- C5 counterexample: on the scenario library with prompt "give me something
classic" the keyword backend does NOT score only the first two tracks: the
extracted keyword "me" (length 2, not a stop word) is a substring of the
normalized title "one more time", so the Daft Punk track scores 2 and the
returned playlist is `[0, 1, 2]`, not `[0, 1]` as the claim states. -/
theorem C5_keyword_scenario_counterexample :
    keywordGenerate "give me something classic" scenarioLib 50 0 =
      some [0, 1, 2] ∧
    0 < scoreTrack scenarioTrack2
        (extractKeywords "give me something classic") ∧
    some [0, 1, 2] ≠ some [0, 1] := by
  refine ⟨by decide, by decide, by decide⟩

/-- C5 as amended: on the scenario library with prompt "give me something
classic", tracks 0 and 1 score 3 each (era match of `classic` on years
≤ 1990), track 2 scores 2 (keyword "me" occurs in title "One More Time"),
and the playlist is `[0, 1, 2]` — the two tied tracks in library order
(stable-sort model of `std::sort`), the lower-scoring third track last. -/
theorem C5_keyword_scenario :
    extractKeywords "give me something classic" =
      {"give", "me", "something", "classic"} ∧
    scoreTrack scenarioTrack0 (extractKeywords "give me something classic") = 3 ∧
    scoreTrack scenarioTrack1 (extractKeywords "give me something classic") = 3 ∧
    scoreTrack scenarioTrack2 (extractKeywords "give me something classic") = 2 ∧
    matchesYear "classic" (some 1977) = true ∧
    matchesYear "classic" (some 2000) = false ∧
    keywordGenerate "give me something classic" scenarioLib 50 0 =
      some [0, 1, 2] := by
  refine ⟨by decide, by decide, by decide, by decide, by decide, by decide, by decide⟩

/-- C9: the keyword backend's track score is monotone in the keyword set:
every keyword contributes a non-negative amount, so growing the set never
decreases any track's score. -/
theorem C9_scoreTrack_monotone (t : TrackMetadata) (K Kp : Finset String)
    (h : K ⊆ Kp) : scoreTrack t K ≤ scoreTrack t Kp :=
  Finset.sum_le_sum_of_subset h

/-- Witness for C9 at a concrete track and concrete keyword sets. -/
theorem C9_scoreTrack_monotone_witness :
    ({"classic"} : Finset String) ⊆ {"classic", "me"} ∧
    scoreTrack scenarioTrack2 {"classic"} ≤
      scoreTrack scenarioTrack2 {"classic", "me"} :=
  ⟨by decide, C9_scoreTrack_monotone scenarioTrack2 {"classic"} {"classic", "me"}
    (by decide)⟩

/-- Sampled-indices construction of `AIPromptBuilder::buildPrompt`
(`ai_prompt_builder.cpp`, lines 33–58).  A small library is enumerated in
order; a large one is shuffled (`std::shuffle` of `iota(0..size-1)` with a
`std::mt19937` seeded from `std::random_device`, abstracted here as an
arbitrary `shuffled` list that the theorems constrain to be a permutation of
`List.range librarySize`), its first `maxTracks` entries taken, and those
sorted ascending (`std::sort` over distinct numbers, modelled by
`insertionSort`). -/
def buildSampledIndices (librarySize maxTracks : Nat) (shuffled : List Nat) :
    List Nat :=
  if librarySize ≤ maxTracks then List.range librarySize
  else List.insertionSort (· ≤ ·) (shuffled.take maxTracks)

/-- C3: when `library.size ≤ max_tracks_in_prompt` the sampled indices are
`[0, …, size-1]` in order; otherwise they are exactly `max_tracks_in_prompt`
distinct valid library indices sorted ascending. -/
theorem C3_buildPrompt_sampledIndices (librarySize maxTracks : Nat)
    (shuffled : List Nat) (hperm : List.Perm shuffled (List.range librarySize)) :
    (librarySize ≤ maxTracks →
      buildSampledIndices librarySize maxTracks shuffled =
        List.range librarySize) ∧
    (maxTracks < librarySize →
      (buildSampledIndices librarySize maxTracks shuffled).length = maxTracks ∧
      (buildSampledIndices librarySize maxTracks shuffled).Nodup ∧
      List.Sorted (· ≤ ·) (buildSampledIndices librarySize maxTracks shuffled) ∧
      ∀ x ∈ buildSampledIndices librarySize maxTracks shuffled,
        x < librarySize) := by
  constructor
  · intro hle
    simp [buildSampledIndices, hle]
  · intro hlt
    have hnle : ¬ librarySize ≤ maxTracks := by omega
    have hlen : shuffled.length = librarySize := by
      simpa using hperm.length_eq
    have hnodup : shuffled.Nodup := hperm.nodup_iff.mpr (List.nodup_range _)
    have hpermSort :
        List.Perm (List.insertionSort (· ≤ ·) (shuffled.take maxTracks))
          (shuffled.take maxTracks) := List.perm_insertionSort _ _
    refine ⟨?_, ?_, ?_, ?_⟩
    · simp only [buildSampledIndices, hnle, if_neg, not_false_iff]
      rw [List.length_insertionSort, List.length_take]
      omega
    · simp only [buildSampledIndices, hnle, if_neg, not_false_iff]
      exact hpermSort.nodup_iff.mpr (hnodup.sublist (List.take_sublist _ _))
    · simp only [buildSampledIndices, hnle, if_neg, not_false_iff]
      exact List.sorted_insertionSort _ _
    · intro x hx
      simp only [buildSampledIndices, hnle, if_neg, not_false_iff] at hx
      have hx2 : x ∈ shuffled.take maxTracks := hpermSort.mem_iff.mp hx
      have hx3 : x ∈ shuffled := List.take_subset _ _ hx2
      have hx4 : x ∈ List.range librarySize := hperm.mem_iff.mp hx3
      exact List.mem_range.mp hx4

/-- Witness for C3 at a concrete permutation: library of 3 tracks sampled
down to 2 via the shuffle `[2, 0, 1]` gives `[0, 2]`. -/
theorem C3_buildPrompt_sampledIndices_witness :
    List.Perm ([2, 0, 1] : List Nat) (List.range 3) ∧
    (2 : Nat) < 3 ∧
    (buildSampledIndices 3 2 [2, 0, 1]).length = 2 ∧
    buildSampledIndices 3 2 [2, 0, 1] = [0, 2] :=
  ⟨by decide, by decide,
    ((C3_buildPrompt_sampledIndices 3 2 [2, 0, 1] (by decide)).2 (by decide)).1,
    by decide⟩

/-- JSON values as stored by the external `nlohmann::json` library, as far as
the response-parsing code inspects them: integers (`is_number_integer()`
true), and the other kinds it rejects. -/
inductive Json where
  | intVal (k : Int)
  | numVal (s : String)
  | strVal (s : String)
  | boolVal (b : Bool)
  | nullVal
  | arrVal (elems : List Json)
  | objVal (fields : List (String × Json))
deriving Repr

/-- Position of the first occurrence of `c` (models `std::string::find`). -/
def firstIdxOf : List Char → Char → Option Nat
  | [], _ => none
  | a :: rest, c =>
    if a == c then some 0 else (firstIdxOf rest c).map (· + 1)

/-- Position of the last occurrence of `c` (models `std::string::rfind`). -/
def lastIdxOf (cs : List Char) (c : Char) : Option Nat :=
  (firstIdxOf cs.reverse c).map (fun i => cs.length - 1 - i)

/-- Slicing step shared by `AIPromptBuilder::parseJsonResponse` and the two
tool-loop final-answer paths: find the first `[` and the last `]`; fail when
either is missing or `start >= end`; otherwise take
`substr(start, end - start + 1)`. -/
def findSlice (cs : List Char) : Option (List Char) :=
  match firstIdxOf cs '[', lastIdxOf cs ']' with
  | some s, some e => if s < e then some ((cs.drop s).take (e - s + 1)) else none
  | _, _ => none

/-- Wrap an unbounded integer into `int32`, modelling the narrowing
`idx.get<int>()` from the library's 64-bit integer storage. -/
def wrapInt32 (k : Int) : Int :=
  (k + 2 ^ 31) % 2 ^ 32 - 2 ^ 31

/-- Per-entry step of the `parseJsonResponse` loop: integers only
(`is_number_integer()`), converted with `get<int>()`, shifted to a 0-based
row, bounds-checked against `static_cast<int>(sampled_indices.size())`, and
mapped through `sampled_indices`. -/
def entryToRow (sampled : List Nat) (e : Json) : Option Nat :=
  match e with
  | Json.intVal k =>
    let s : Int := wrapInt32 k - 1
    if 0 ≤ s ∧ s < wrapInt32 (sampled.length : Int) then
      some (sampled.getD s.toNat 0)
    else none
  | _ => none

/-- Array-processing part of `AIPromptBuilder::parseJsonResponse`: reject
non-arrays, map entries through `entryToRow`, dropping rejected ones. -/
def processIndicesArray (sampled : List Nat) : Json → List Nat
  | Json.arrVal elems => elems.filterMap (entryToRow sampled)
  | _ => []

/-- Model of `AIPromptBuilder::parseJsonResponse` (`ai_prompt_builder.cpp`,
lines 108–160), parameterized by the external JSON parser `jparse`
(`nlohmann::json::parse`; `none` models a parse exception). -/
def parseJsonResponse (jparse : List Char → Option Json) (response_text : String)
    (sampled : List Nat) : List Nat :=
  match findSlice response_text.toList with
  | none => []
  | some slice =>
    match jparse slice with
    | none => []
    | some v => processIndicesArray sampled v

/-- Drop leading JSON whitespace. -/
def skipWs (cs : List Char) : List Char :=
  cs.dropWhile (fun c => asciiIsSpace c)

/-- Leading decimal digits of a character list, with the rest. -/
def takeDigits (cs : List Char) : List Char × List Char :=
  (cs.takeWhile (fun c => decide ('0' ≤ c) && decide (c ≤ '9')),
   cs.dropWhile (fun c => decide ('0' ≤ c) && decide (c ≤ '9')))

/-- Numeric value of a digit string. -/
def digitsToNat (ds : List Char) : Nat :=
  ds.foldl (fun acc c => acc * 10 + (c.toNat - '0'.toNat)) 0

/-- Parse one (possibly negated) integer literal. -/
def parseIntTok (cs : List Char) : Option (Int × List Char) :=
  match cs with
  | '-' :: rest =>
    let p := takeDigits rest
    if p.1.isEmpty then none else some (-(digitsToNat p.1 : Int), p.2)
  | _ =>
    let p := takeDigits cs
    if p.1.isEmpty then none else some ((digitsToNat p.1 : Int), p.2)

/-- Parse `int (, int)* ]` with a fuel bound. -/
def parseElemsAux : Nat → List Char → Option (List Int × List Char)
  | 0, _ => none
  | fuel + 1, cs =>
    match parseIntTok (skipWs cs) with
    | none => none
    | some (k, rest) =>
      match skipWs rest with
      | ',' :: rest2 =>
        match parseElemsAux fuel rest2 with
        | some (ks, r) => some (k :: ks, r)
        | none => none
      | ']' :: rest2 => some ([k], rest2)
      | _ => none

/-- Modelled from the external `nlohmann::json` library: `json::parse`
restricted to the fragment the settled inputs exercise — JSON arrays of
integer literals.  Inputs outside the fragment return `none`, exactly where
`nlohmann::json::parse` would throw on them. -/
def parseIntArray (cs : List Char) : Option Json :=
  match skipWs cs with
  | '[' :: rest =>
    match skipWs rest with
    | ']' :: rest2 =>
      if (skipWs rest2).isEmpty then some (Json.arrVal []) else none
    | other =>
      match parseElemsAux (cs.length + 1) other with
      | some (ks, r) =>
        if (skipWs r).isEmpty then some (Json.arrVal (ks.map Json.intVal))
        else none
      | none => none
  | _ => none

/-- Specification-side reading of one response entry, following the claim's
words: an integer `k` is valid iff `1 ≤ k ≤ sampledIndices.length` and maps
to `sampledIndices[k-1]`; anything else is dropped. -/
def claimEntryToRow (sampled : List Nat) (e : Json) : Option Nat :=
  match e with
  | Json.intVal k =>
    if 1 ≤ k ∧ k ≤ (sampled.length : Int) then
      some (sampled.getD (k - 1).toNat 0)
    else none
  | _ => none

lemma wrapInt32_eq_self (k : Int) (h1 : -(2 ^ 31) ≤ k) (h2 : k < 2 ^ 31) :
    wrapInt32 k = k := by
  have hmod : (k + 2 ^ 31) % 2 ^ 32 = k + 2 ^ 31 :=
    Int.emod_eq_of_lt (by omega) (by omega)
  simp only [wrapInt32, hmod]
  omega

lemma filterMap_congr_mem {α β : Type} {l : List α} {f g : α → Option β}
    (h : ∀ a ∈ l, f a = g a) : l.filterMap f = l.filterMap g := by
  induction l with
  | nil => rfl
  | cons a l ih =>
    simp only [List.filterMap_cons, h a (List.mem_cons_self a l)]
    rw [ih (fun x hx => h x (List.mem_cons_of_mem a hx))]

/-- C2 counterexample: duplicate entries are NOT dropped.  On
`rawText = "[1, 1]"` with `sampledIndices = [7, 9]`, the parser returns
`[7, 7]` — the valid row `1` is mapped once per occurrence — whereas the
claim (duplicates dropped silently) predicts `[7]`. -/
theorem C2_duplicates_kept_counterexample :
    parseJsonResponse parseIntArray "[1, 1]" [7, 9] = [7, 7] ∧
    ([7, 7] : List Nat) ≠ [7] := by
  exact ⟨by decide, by decide⟩

/-- C2 as amended: for every `sampledIndices` and `rawText`,
`parseJsonResponse` slices from the first `[` to the last `]`, parses the
slice, and maps the valid entries `k` (integers with
`1 ≤ k ≤ sampledIndices.length`) to `sampledIndices[k-1]` in the order
given — keeping duplicates — while out-of-range and non-integer entries are
dropped silently; it returns the empty sequence when no bracketed array is
found or parsing throws.  (The `int32` hypotheses discharge the narrowing
`get<int>()` conversion.) -/
theorem C2_parseJsonResponse_amended (jparse : List Char → Option Json)
    (raw : String) (sampled : List Nat)
    (hlen : (sampled.length : Int) < 2 ^ 31) :
    (findSlice raw.toList = none → parseJsonResponse jparse raw sampled = []) ∧
    (∀ slice, findSlice raw.toList = some slice → jparse slice = none →
      parseJsonResponse jparse raw sampled = []) ∧
    (∀ slice entries, findSlice raw.toList = some slice →
      jparse slice = some (Json.arrVal entries) →
      (∀ e ∈ entries, ∀ k, e = Json.intVal k → -(2 ^ 31) ≤ k ∧ k < 2 ^ 31) →
      parseJsonResponse jparse raw sampled =
        entries.filterMap (claimEntryToRow sampled)) := by
  refine ⟨fun h => ?_, fun slice h1 h2 => ?_, fun slice entries h1 h2 hsmall => ?_⟩
  · have hd : findSlice raw.data = none := h
    simp [parseJsonResponse, hd]
  · have hd : findSlice raw.data = some slice := h1
    simp [parseJsonResponse, hd, h2]
  · have hd : findSlice raw.data = some slice := h1
    simp only [parseJsonResponse, h1, hd, h2, processIndicesArray]
    refine filterMap_congr_mem (fun e he => ?_)
    cases e with
    | intVal k =>
      obtain ⟨hk1, hk2⟩ := hsmall _ he k rfl
      have hlen0 : (0 : Int) ≤ (sampled.length : Int) := by positivity
      simp only [entryToRow, claimEntryToRow, wrapInt32_eq_self k hk1 hk2,
        wrapInt32_eq_self ((sampled.length : Nat) : Int) (by omega) hlen]
      exact if_congr (by constructor <;> (intro h; constructor <;> omega)) rfl rfl
    | numVal s => rfl
    | strVal s => rfl
    | boolVal b => rfl
    | nullVal => rfl
    | arrVal es => rfl
    | objVal fs => rfl

/-- Witness for C2 at a concrete response: prose around `[1, 3, 99, 2]` with
three sampled indices maps rows 1, 3, 2 (99 dropped as out of range). -/
theorem C2_parseJsonResponse_amended_witness :
    ((([10, 20, 30] : List Nat).length : Int) < 2 ^ 31) ∧
    findSlice ("pick [1, 3, 99, 2] thanks").toList =
      some ("[1, 3, 99, 2]").toList ∧
    parseIntArray ("[1, 3, 99, 2]").toList =
      some (Json.arrVal
        [Json.intVal 1, Json.intVal 3, Json.intVal 99, Json.intVal 2]) ∧
    parseJsonResponse parseIntArray "pick [1, 3, 99, 2] thanks" [10, 20, 30] =
      [10, 30, 20] := by
  refine ⟨by decide, by decide, by rfl, ?_⟩
  have happ := (C2_parseJsonResponse_amended parseIntArray
    "pick [1, 3, 99, 2] thanks" [10, 20, 30] (by decide)).2.2
    ("[1, 3, 99, 2]").toList
    [Json.intVal 1, Json.intVal 3, Json.intVal 99, Json.intVal 2]
    (by decide) (by rfl) ?_
  · rw [happ]; decide
  · intro e he k hk
    subst hk
    simp only [List.mem_cons, List.not_mem_nil, or_false] at he
    rcases he with h | h | h | h <;> (injection h with h2) <;> omega

/-- Content block of a Claude messages-API response, as far as the loop in
`list/src/ai_backend_claude.cpp` inspects it. -/
inductive ContentBlock where
  | text (s : String)
  | toolUseBlock (id name : String) (input : Json)
  | otherBlock

/-- One Claude response as `ClaudeBackend::generate` classifies it: transport
or HTTP or envelope failure, `stop_reason == "tool_use"`,
`stop_reason == "end_turn"`, or an unexpected stop reason. -/
inductive ClaudeTurn where
  | transportError
  | toolUse (blocks : List ContentBlock)
  | endTurn (blocks : List ContentBlock)
  | otherStop

/-- Tool call in a ChatGPT response: the provider double-encodes the
`function.arguments` field as a JSON string that must itself be parsed. -/
structure ToolCall where
  id : String
  functionName : String
  argumentsStr : String

/-- One ChatGPT response as `ChatGPTBackend::generate` classifies it:
transport/HTTP/parse/empty-choices failure, a message with non-null
`tool_calls`, or a final message with optional `content`. -/
inductive ChatGPTTurn where
  | transportError
  | toolCalls (calls : List ToolCall)
  | finalMsg (content : Option String)

/-- Tool-result message appended to the conversation for one executed tool
call (`{"role":"tool","tool_call_id":..., "content":...}`). -/
structure ToolResultMsg where
  tool_call_id : String
  content : Json

/-- Final-answer extraction shared by both tool-calling loops
(`ai_backend_claude.cpp` lines 425–453, `ai_backend_chatgpt.cpp` lines
469–506): slice first `[` to last `]`, parse, require a non-empty array,
convert integer entries with `get<size_t>()` (a wrap modulo `2^64`), keep
those below the library size, and succeed only when something is left. -/
def extractFinalPlaylist (jparse : List Char → Option Json) (librarySize : Nat)
    (text : String) : Option (List Nat) :=
  match findSlice text.toList with
  | none => none
  | some slice =>
    match jparse slice with
    | none => none
    | some v =>
      match v with
      | Json.arrVal entries =>
        if entries.isEmpty then none
        else
          let playlist := entries.filterMap (fun e =>
            match e with
            | Json.intVal k =>
              let u := (k % 2 ^ 64).toNat
              if u < librarySize then some u else none
            | _ => none)
          if playlist.isEmpty then none else some playlist
      | _ => none

/-- Claude `end_turn` handling: try each content block in order; the first
text block whose extraction yields a playlist wins, otherwise fail. -/
def claudeFinalAnswer (jparse : List Char → Option Json) (librarySize : Nat)
    (blocks : List ContentBlock) : Option (List Nat) :=
  blocks.findSome? (fun b =>
    match b with
    | ContentBlock.text s => extractFinalPlaylist jparse librarySize s
    | _ => none)

/-- Tool-dispatch loop of one ChatGPT turn (`ai_backend_chatgpt.cpp` lines
432–457): for each tool call parse the JSON-encoded arguments string; on a
parse exception log and `continue` (skip just that call); otherwise execute
the tool (`exec` abstracts `executeToolCall` bound to the search engine)
and append a tool-result message. -/
def processToolCalls (jparse : List Char → Option Json)
    (exec : String → Json → Json) : List ToolCall → List ToolResultMsg
  | [] => []
  | c :: rest =>
    match jparse c.argumentsStr.toList with
    | none => processToolCalls jparse exec rest
    | some args =>
      { tool_call_id := c.id, content := exec c.functionName args } ::
        processToolCalls jparse exec rest

/-- Turn budget of both tool-calling loops (`const int MAX_TURNS = 10`). -/
def MAX_TURNS : Nat := 10

/-- Turn loop of `ChatGPTBackend::generate`, abstracted over the provider's
responses (a function of the turn number).  Returns the generation outcome
together with the number of HTTP requests issued; the fuel argument is
`MAX_TURNS - turn`, so running out of fuel is the `Exceeded maximum turns`
failure path after the `for` loop. -/
def chatgptLoopAux (jparse : List Char → Option Json) (librarySize : Nat)
    (responses : Nat → ChatGPTTurn) : Nat → Nat → Option (List Nat) × Nat
  | _, 0 => (none, 0)
  | turn, fuel + 1 =>
    match responses turn with
    | ChatGPTTurn.transportError => (none, 1)
    | ChatGPTTurn.toolCalls _ =>
      let r := chatgptLoopAux jparse librarySize responses (turn + 1) fuel
      (r.1, r.2 + 1)
    | ChatGPTTurn.finalMsg content =>
      (content.bind (extractFinalPlaylist jparse librarySize), 1)

/-- Model of `ChatGPTBackend::generate`: empty-library guard, then the turn
loop starting at turn 0 with the full budget. -/
def chatgptGenerate (jparse : List Char → Option Json)
    (lib : List TrackMetadata) (responses : Nat → ChatGPTTurn) :
    Option (List Nat) × Nat :=
  if lib.isEmpty then (none, 0)
  else chatgptLoopAux jparse lib.length responses 0 MAX_TURNS

/-- Turn loop of `ClaudeBackend::generate` (`list/src/ai_backend_claude.cpp`),
same structure as the ChatGPT loop with Claude's response classification. -/
def claudeLoopAux (jparse : List Char → Option Json) (librarySize : Nat)
    (responses : Nat → ClaudeTurn) : Nat → Nat → Option (List Nat) × Nat
  | _, 0 => (none, 0)
  | turn, fuel + 1 =>
    match responses turn with
    | ClaudeTurn.transportError => (none, 1)
    | ClaudeTurn.toolUse _ =>
      let r := claudeLoopAux jparse librarySize responses (turn + 1) fuel
      (r.1, r.2 + 1)
    | ClaudeTurn.endTurn blocks => (claudeFinalAnswer jparse librarySize blocks, 1)
    | ClaudeTurn.otherStop => (none, 1)

/-- Model of the tool-calling `ClaudeBackend::generate`. -/
def claudeGenerate (jparse : List Char → Option Json)
    (lib : List TrackMetadata) (responses : Nat → ClaudeTurn) :
    Option (List Nat) × Nat :=
  if lib.isEmpty then (none, 0)
  else claudeLoopAux jparse lib.length responses 0 MAX_TURNS

/-- Final step shared by the single-shot Claude backend
(`src/src/ai_backend_claude.cpp` lines 139–148) and both llama.cpp backends:
run the response text through `AIPromptBuilder::parseJsonResponse` and fail
on an empty playlist rather than returning an empty success. -/
def singleShotFinish (jparse : List Char → Option Json) (content_text : String)
    (sampled : List Nat) : Option (List Nat) :=
  let playlist := parseJsonResponse jparse content_text sampled
  if playlist.isEmpty then none else some playlist

lemma chatgptLoopAux_requests_le (jparse : List Char → Option Json)
    (n : Nat) (responses : Nat → ChatGPTTurn) :
    ∀ (fuel turn : Nat), (chatgptLoopAux jparse n responses turn fuel).2 ≤ fuel := by
  intro fuel
  induction fuel with
  | zero => intro turn; simp [chatgptLoopAux]
  | succ f ih =>
    intro turn
    cases h : responses turn with
    | transportError => simp [chatgptLoopAux, h]
    | toolCalls cs =>
      simp only [chatgptLoopAux, h]
      have := ih (turn + 1)
      omega
    | finalMsg c => simp [chatgptLoopAux, h]

lemma claudeLoopAux_requests_le (jparse : List Char → Option Json)
    (n : Nat) (responses : Nat → ClaudeTurn) :
    ∀ (fuel turn : Nat), (claudeLoopAux jparse n responses turn fuel).2 ≤ fuel := by
  intro fuel
  induction fuel with
  | zero => intro turn; simp [claudeLoopAux]
  | succ f ih =>
    intro turn
    cases h : responses turn with
    | transportError => simp [claudeLoopAux, h]
    | toolUse bs =>
      simp only [claudeLoopAux, h]
      have := ih (turn + 1)
      omega
    | endTurn bs => simp [claudeLoopAux, h]
    | otherStop => simp [claudeLoopAux, h]

lemma chatgptLoopAux_all_tools (jparse : List Char → Option Json)
    (n : Nat) (responses : Nat → ChatGPTTurn) :
    ∀ (fuel turn : Nat),
      (∀ t, turn ≤ t → t < turn + fuel →
        ∃ cs, responses t = ChatGPTTurn.toolCalls cs) →
      chatgptLoopAux jparse n responses turn fuel = (none, fuel) := by
  intro fuel
  induction fuel with
  | zero => intro turn _; simp [chatgptLoopAux]
  | succ f ih =>
    intro turn h
    obtain ⟨cs, hcs⟩ := h turn (Nat.le_refl _) (by omega)
    simp only [chatgptLoopAux, hcs]
    rw [ih (turn + 1) (fun t h1 h2 => h t (by omega) (by omega))]

lemma claudeLoopAux_all_tools (jparse : List Char → Option Json)
    (n : Nat) (responses : Nat → ClaudeTurn) :
    ∀ (fuel turn : Nat),
      (∀ t, turn ≤ t → t < turn + fuel →
        ∃ bs, responses t = ClaudeTurn.toolUse bs) →
      claudeLoopAux jparse n responses turn fuel = (none, fuel) := by
  intro fuel
  induction fuel with
  | zero => intro turn _; simp [claudeLoopAux]
  | succ f ih =>
    intro turn h
    obtain ⟨bs, hbs⟩ := h turn (Nat.le_refl _) (by omega)
    simp only [claudeLoopAux, hbs]
    rw [ih (turn + 1) (fun t h1 h2 => h t (by omega) (by omega))]

/-- C4: both tool-calling backends issue at most `MAX_TURNS = 10` requests,
and when each of the first 10 turns requests further tool calls they return
the turn-budget failure (`none`) after exactly 10 requests, never an 11th. -/
theorem C4_turn_budget :
    (∀ (jparse : List Char → Option Json) (lib : List TrackMetadata)
        (responses : Nat → ChatGPTTurn),
      (chatgptGenerate jparse lib responses).2 ≤ MAX_TURNS) ∧
    (∀ (jparse : List Char → Option Json) (lib : List TrackMetadata)
        (responses : Nat → ClaudeTurn),
      (claudeGenerate jparse lib responses).2 ≤ MAX_TURNS) ∧
    (∀ (jparse : List Char → Option Json) (lib : List TrackMetadata)
        (responses : Nat → ChatGPTTurn),
      lib.isEmpty = false →
      (∀ t, t < MAX_TURNS → ∃ cs, responses t = ChatGPTTurn.toolCalls cs) →
      chatgptGenerate jparse lib responses = (none, MAX_TURNS)) ∧
    (∀ (jparse : List Char → Option Json) (lib : List TrackMetadata)
        (responses : Nat → ClaudeTurn),
      lib.isEmpty = false →
      (∀ t, t < MAX_TURNS → ∃ bs, responses t = ClaudeTurn.toolUse bs) →
      claudeGenerate jparse lib responses = (none, MAX_TURNS)) := by
  refine ⟨fun jparse lib responses => ?_, fun jparse lib responses => ?_,
    fun jparse lib responses hlib hall => ?_,
    fun jparse lib responses hlib hall => ?_⟩
  · unfold chatgptGenerate
    split
    · simp
    · exact chatgptLoopAux_requests_le jparse lib.length responses MAX_TURNS 0
  · unfold claudeGenerate
    split
    · simp
    · exact claudeLoopAux_requests_le jparse lib.length responses MAX_TURNS 0
  · unfold chatgptGenerate
    rw [hlib]
    simp only [Bool.false_eq_true, if_neg, not_false_iff]
    exact chatgptLoopAux_all_tools jparse lib.length responses MAX_TURNS 0
      (fun t h1 h2 => hall t (by omega))
  · unfold claudeGenerate
    rw [hlib]
    simp only [Bool.false_eq_true, if_neg, not_false_iff]
    exact claudeLoopAux_all_tools jparse lib.length responses MAX_TURNS 0
      (fun t h1 h2 => hall t (by omega))

/-- Witness for C4: a provider that requests tools on every turn makes both
loops stop with a failure after exactly 10 requests. -/
theorem C4_turn_budget_witness :
    scenarioLib.isEmpty = false ∧
    chatgptGenerate parseIntArray scenarioLib
      (fun _ => ChatGPTTurn.toolCalls []) = (none, MAX_TURNS) ∧
    claudeGenerate parseIntArray scenarioLib
      (fun _ => ClaudeTurn.toolUse []) = (none, MAX_TURNS) :=
  ⟨rfl,
    C4_turn_budget.2.2.1 parseIntArray scenarioLib _ rfl (fun _ _ => ⟨[], rfl⟩),
    C4_turn_budget.2.2.2 parseIntArray scenarioLib _ rfl (fun _ _ => ⟨[], rfl⟩)⟩

lemma extractFinalPlaylist_some_ne_nil (jparse : List Char → Option Json)
    (n : Nat) (text : String) (l : List Nat)
    (h : extractFinalPlaylist jparse n text = some l) : l ≠ [] := by
  unfold extractFinalPlaylist at h
  split at h
  · simp at h
  · split at h
    · simp at h
    · split at h
      · split at h
        · simp at h
        · dsimp only at h
          split at h
          · simp at h
          · rename_i hne
            rw [Option.some_inj] at h
            subst h
            simpa using hne
      · simp at h

lemma claudeFinalAnswer_some_ne_nil (jparse : List Char → Option Json)
    (n : Nat) (blocks : List ContentBlock) (l : List Nat)
    (h : claudeFinalAnswer jparse n blocks = some l) : l ≠ [] := by
  unfold claudeFinalAnswer at h
  obtain ⟨b, hb, hsome⟩ := List.exists_of_findSome?_eq_some h
  cases b with
  | text s => exact extractFinalPlaylist_some_ne_nil jparse n s l hsome
  | toolUseBlock id name input => simp at hsome
  | otherBlock => simp at hsome

lemma chatgptLoopAux_some_ne_nil (jparse : List Char → Option Json)
    (n : Nat) (responses : Nat → ChatGPTTurn) :
    ∀ (fuel turn : Nat) (l : List Nat),
      (chatgptLoopAux jparse n responses turn fuel).1 = some l → l ≠ [] := by
  intro fuel
  induction fuel with
  | zero => intro turn l h; simp [chatgptLoopAux] at h
  | succ f ih =>
    intro turn l h
    cases hr : responses turn with
    | transportError => rw [chatgptLoopAux, hr] at h; simp at h
    | toolCalls cs =>
      rw [chatgptLoopAux, hr] at h
      exact ih (turn + 1) l h
    | finalMsg content =>
      rw [chatgptLoopAux, hr] at h
      cases content with
      | none => simp at h
      | some s =>
        simp only [Option.bind_some] at h
        exact extractFinalPlaylist_some_ne_nil jparse n s l h

lemma claudeLoopAux_some_ne_nil (jparse : List Char → Option Json)
    (n : Nat) (responses : Nat → ClaudeTurn) :
    ∀ (fuel turn : Nat) (l : List Nat),
      (claudeLoopAux jparse n responses turn fuel).1 = some l → l ≠ [] := by
  intro fuel
  induction fuel with
  | zero => intro turn l h; simp [claudeLoopAux] at h
  | succ f ih =>
    intro turn l h
    cases hr : responses turn with
    | transportError => rw [claudeLoopAux, hr] at h; simp at h
    | toolUse bs =>
      rw [claudeLoopAux, hr] at h
      exact ih (turn + 1) l h
    | endTurn bs =>
      rw [claudeLoopAux, hr] at h
      exact claudeFinalAnswer_some_ne_nil jparse n bs l h
    | otherStop => rw [claudeLoopAux, hr] at h; simp at h

lemma sorted_trunc_ne_nil {α : Type} (maxR : Nat) (hmax : 0 < maxR)
    (s : List α) (hs : s ≠ []) (sorted : List α) (hlen : sorted.length = s.length) :
    (if maxR < sorted.length then sorted.take maxR else sorted) ≠ [] := by
  split
  · rename_i hlt
    intro htake
    rw [List.take_eq_nil_iff] at htake
    rcases htake with h0 | h0
    · omega
    · rw [h0] at hlt
      simp at hlt
  · intro h0
    rw [h0] at hlen
    simp only [List.length_nil] at hlen
    exact hs (List.length_eq_zero.mp hlen.symm)

lemma keywordGenerate_some_ne_nil (prompt : String) (lib : List TrackMetadata)
    (maxResults minScore : Nat) (l : List Nat) (hmax : 0 < maxResults)
    (h : keywordGenerate prompt lib maxResults minScore = some l) : l ≠ [] := by
  simp only [keywordGenerate] at h
  split at h
  · simp at h
  · split at h
    · simp at h
    · split at h
      · simp at h
      · rename_i hscored
        rw [Option.some_inj] at h
        subst h
        simp only [ne_eq, List.map_eq_nil_iff]
        refine sorted_trunc_ne_nil maxResults hmax _ ?_ _
          (List.length_insertionSort _ _)
        intro h0
        exact hscored (by rw [h0]; rfl)

/-- C6: no generation path returns an empty success.  Both tool-calling
loops, the shared single-shot/local-model finish (parse then reject empty),
and the keyword backend (with any positive result cap — the shipped value is
the default 50, never changed by the repository) return either a failure
value or a non-empty index list. -/
theorem C6_no_empty_success :
    (∀ (jparse : List Char → Option Json) (lib : List TrackMetadata)
        (responses : Nat → ChatGPTTurn) (l : List Nat),
      (chatgptGenerate jparse lib responses).1 = some l → l ≠ []) ∧
    (∀ (jparse : List Char → Option Json) (lib : List TrackMetadata)
        (responses : Nat → ClaudeTurn) (l : List Nat),
      (claudeGenerate jparse lib responses).1 = some l → l ≠ []) ∧
    (∀ (jparse : List Char → Option Json) (text : String)
        (sampled : List Nat) (l : List Nat),
      singleShotFinish jparse text sampled = some l → l ≠ []) ∧
    (∀ (prompt : String) (lib : List TrackMetadata)
        (maxResults minScore : Nat) (l : List Nat),
      0 < maxResults →
      keywordGenerate prompt lib maxResults minScore = some l → l ≠ []) := by
  refine ⟨fun jparse lib responses l h => ?_, fun jparse lib responses l h => ?_,
    fun jparse text sampled l h => ?_,
    fun prompt lib maxResults minScore l hmax h =>
      keywordGenerate_some_ne_nil prompt lib maxResults minScore l hmax h⟩
  · unfold chatgptGenerate at h
    split at h
    · simp at h
    · exact chatgptLoopAux_some_ne_nil jparse lib.length responses MAX_TURNS 0 l h
  · unfold claudeGenerate at h
    split at h
    · simp at h
    · exact claudeLoopAux_some_ne_nil jparse lib.length responses MAX_TURNS 0 l h
  · unfold singleShotFinish at h
    dsimp only at h
    split at h
    · simp at h
    · rename_i hne
      rw [Option.some_inj] at h
      subst h
      simpa using hne

/-- Witness for C6: the keyword backend on prompt "classic" over the scenario
library returns the non-empty playlist `[0, 1]`, and a ChatGPT run whose
first turn is a final answer `[0]` returns the non-empty `[0]`. -/
theorem C6_no_empty_success_witness :
    keywordGenerate "classic" scenarioLib 50 0 = some [0, 1] ∧
    (0 : Nat) < 50 ∧
    ([0, 1] : List Nat) ≠ [] ∧
    (chatgptGenerate parseIntArray scenarioLib
      (fun _ => ChatGPTTurn.finalMsg (some "[0]"))).1 = some [0] ∧
    ([0] : List Nat) ≠ [] :=
  ⟨by decide, by decide,
    C6_no_empty_success.2.2.2 "classic" scenarioLib 50 0 [0, 1] (by decide)
      (by decide),
    by decide,
    C6_no_empty_success.1 parseIntArray scenarioLib
      (fun _ => ChatGPTTurn.finalMsg (some "[0]")) [0] (by decide)⟩

lemma processToolCalls_append (jparse : List Char → Option Json)
    (exec : String → Json → Json) :
    ∀ (l1 l2 : List ToolCall),
      processToolCalls jparse exec (l1 ++ l2) =
        processToolCalls jparse exec l1 ++ processToolCalls jparse exec l2 := by
  intro l1
  induction l1 with
  | nil => intro l2; rfl
  | cons c rest ih =>
    intro l2
    cases hp : jparse c.argumentsStr.toList with
    | none =>
      simp only [List.cons_append, processToolCalls, hp]
      exact ih l2
    | some args =>
      simp only [List.cons_append, processToolCalls, hp]
      exact congrArg _ (ih l2)

lemma mem_processToolCalls (jparse : List Char → Option Json)
    (exec : String → Json → Json) :
    ∀ (calls : List ToolCall) (c : ToolCall), c ∈ calls →
      ∀ args, jparse c.argumentsStr.toList = some args →
        ({ tool_call_id := c.id, content := exec c.functionName args } :
          ToolResultMsg) ∈ processToolCalls jparse exec calls := by
  intro calls
  induction calls with
  | nil => intro c hc; simp at hc
  | cons d rest ih =>
    intro c hc args hargs
    rcases List.mem_cons.mp hc with hcd | hcr
    · subst hcd
      simp only [processToolCalls, hargs]
      exact List.mem_cons_self _ _
    · cases hp : jparse d.argumentsStr.toList with
      | none =>
        simp only [processToolCalls, hp]
        exact ih c hcr args hargs
      | some dargs =>
        simp only [processToolCalls, hp]
        exact List.mem_cons_of_mem _ (ih c hcr args hargs)

/-- C8: in a turn carrying several tool invocations, one whose JSON-encoded
arguments string fails to parse is skipped on its own: the produced
tool-result messages are exactly those of the other invocations (in order),
every other parseable invocation is still executed and its result appended,
and a tool-calls turn — malformed entries included — always continues the
loop to the next turn instead of failing the generate call. -/
theorem C8_malformed_tool_call_skipped
    (jparse : List Char → Option Json) (exec : String → Json → Json)
    (pre post : List ToolCall) (c : ToolCall)
    (hbad : jparse c.argumentsStr.toList = none) :
    (processToolCalls jparse exec (pre ++ c :: post) =
      processToolCalls jparse exec pre ++ processToolCalls jparse exec post) ∧
    (∀ c2 ∈ pre ++ post, ∀ args, jparse c2.argumentsStr.toList = some args →
      ({ tool_call_id := c2.id, content := exec c2.functionName args } :
        ToolResultMsg) ∈ processToolCalls jparse exec (pre ++ c :: post)) ∧
    (∀ (librarySize : Nat) (responses : Nat → ChatGPTTurn) (turn fuel : Nat)
        (cs : List ToolCall),
      responses turn = ChatGPTTurn.toolCalls cs →
      chatgptLoopAux jparse librarySize responses turn (fuel + 1) =
        ((chatgptLoopAux jparse librarySize responses (turn + 1) fuel).1,
         (chatgptLoopAux jparse librarySize responses (turn + 1) fuel).2 + 1)) := by
  have hsplit : processToolCalls jparse exec (pre ++ c :: post) =
      processToolCalls jparse exec pre ++ processToolCalls jparse exec post := by
    rw [processToolCalls_append]
    simp only [processToolCalls, hbad]
  refine ⟨hsplit, fun c2 hc2 args hargs => ?_, fun n responses turn fuel cs hcs => ?_⟩
  · rw [hsplit]
    rcases List.mem_append.mp hc2 with hpre | hpost
    · exact List.mem_append.mpr (Or.inl
        (mem_processToolCalls jparse exec pre c2 hpre args hargs))
    · exact List.mem_append.mpr (Or.inr
        (mem_processToolCalls jparse exec post c2 hpost args hargs))
  · simp only [chatgptLoopAux, hcs]

/-- Tool call with parseable arguments, first in the C8 witness turn. -/
def wtCall1 : ToolCall :=
  { id := "call_1", functionName := "search_by_artist", argumentsStr := "[1]" }

/-- Tool call whose arguments string is malformed JSON. -/
def wtBadCall : ToolCall :=
  { id := "call_2", functionName := "search_by_genre", argumentsStr := "oops" }

/-- Tool call with parseable arguments, last in the C8 witness turn. -/
def wtCall3 : ToolCall :=
  { id := "call_3", functionName := "search_by_title", argumentsStr := "[2]" }

/-- Witness for C8: among three tool calls with the middle one's arguments
malformed, processing yields exactly the first and third results. -/
theorem C8_malformed_tool_call_skipped_witness :
    parseIntArray wtBadCall.argumentsStr.toList = none ∧
    processToolCalls parseIntArray (fun _ _ => Json.nullVal)
        [wtCall1, wtBadCall, wtCall3] =
      processToolCalls parseIntArray (fun _ _ => Json.nullVal) [wtCall1] ++
        processToolCalls parseIntArray (fun _ _ => Json.nullVal) [wtCall3] :=
  ⟨rfl,
    (C8_malformed_tool_call_skipped parseIntArray (fun _ _ => Json.nullVal)
      [wtCall1] [wtCall3] wtBadCall rfl).1⟩
